import Mathlib

/-!
Verification of the relay publish/resolve client (`src/pkarr/src/client/relays.rs`).

The registry (`InflightPublishRequests`), its admission (`start_request`),
voting (`add_result` / `add_success` / `add_error`) and completion (`done`)
logic, the publish orchestration loop, and the resolve response handling
(`resolve_from_relay`) are embedded as executable Lean functions.

HashMaps are modelled as association lists with HashMap update semantics
(lookup, replace-on-insert, remove); `HashMap::len` is the list length
(number of distinct keys). A Rust `.expect(..)` on a missing value (a
panic) is modelled by an `Option`-valued result where `none` means the
call panics.
-/

namespace Relays

/-- Modelled from the spec: the closed error taxonomy's query class; only the
timeout kind is used by this module. -/
inductive QueryError where
  | Timeout : QueryError
deriving DecidableEq, Repr

/-- Modelled from the spec: the closed taxonomy of local concurrency errors
(`NotMostRecent`, `CasFailed`, `ConflictRisk`). -/
inductive ConcurrencyError where
  | NotMostRecent : ConcurrencyError
  | CasFailed : ConcurrencyError
  | ConflictRisk : ConcurrencyError
deriving DecidableEq, Repr

/-- Modelled from the spec: the error type surfaced by publish, either a query
error or a concurrency error. -/
inductive PublishError where
  | Query : QueryError → PublishError
  | Concurrency : ConcurrencyError → PublishError
deriving DecidableEq, Repr

/-- Modelled from the spec: the external signed record type, consumed opaquely;
it carries a signature and a logical timestamp, compared by
`more_recent_than` (strict timestamp order) and by signature equality. -/
structure SignedPacket where
  signature : Nat
  timestamp : Nat
deriving DecidableEq, Repr

/-- Modelled from the spec: strict "more recent than" ordering on records by
their logical timestamps. -/
def SignedPacket.more_recent_than (a b : SignedPacket) : Bool :=
  decide (b.timestamp < a.timestamp)

/-- Public keys are opaque identifiers compared by equality. -/
abbrev PublicKey : Type := Nat

/-- Per-key in-flight state: the admitted record, the success counter and the
per-error-kind occurrence counts (`errors: HashMap<PublishError, usize>`). -/
structure InflightPublishRequest where
  signed_packet : SignedPacket
  success_count : Nat
  errors : List (PublishError × Nat)
deriving DecidableEq, Repr

/-- The registry map `HashMap<PublicKey, InflightPublishRequest>`. -/
abbrev Requests : Type := List (PublicKey × InflightPublishRequest)

/-- Models `HashMap::get` on the registry. -/
def lookupReq : Requests → PublicKey → Option InflightPublishRequest
  | [], _ => none
  | (k, r) :: rest, pk => if k = pk then some r else lookupReq rest pk

/-- Models `HashMap::insert` on the registry (replaces the value of an existing key,
appends a fresh key). -/
def insertReq : Requests → PublicKey → InflightPublishRequest → Requests
  | [], pk, r => [(pk, r)]
  | (k, r0) :: rest, pk, r =>
      if k = pk then (pk, r) :: rest else (k, r0) :: insertReq rest pk r

/-- Models `HashMap::remove` on the registry. -/
def removeReq : Requests → PublicKey → Requests
  | [], _ => []
  | (k, r) :: rest, pk => if k = pk then rest else (k, r) :: removeReq rest pk

/-- Models `request.errors.get(&error).unwrap_or(&0)`. -/
def getCount : List (PublishError × Nat) → PublishError → Nat
  | [], _ => 0
  | (k, c) :: rest, e => if k = e then c else getCount rest e

/-- Models `request.errors.insert(error, count)`. -/
def insertCount : List (PublishError × Nat) → PublishError → Nat → List (PublishError × Nat)
  | [], e, c => [(e, c)]
  | (k, c0) :: rest, e, c =>
      if k = e then (e, c) :: rest else (k, c0) :: insertCount rest e c

/-- Models `errors.into_iter().max_by_key(|&(_, count)| count)`: the last maximal
element in iteration order (HashMap iteration order is arbitrary; the list
order stands in for it). -/
def maxByCount : List (PublishError × Nat) → Option (PublishError × Nat)
  | [] => none
  | p :: rest =>
      match maxByCount rest with
      | none => some p
      | some q => if q.2 < p.2 then some p else some q

/-- The condition `matches!(error, Concurrency(NotMostRecent)) |
matches!(error, Concurrency(CasFailed))` from `add_error`. -/
def isConflictClass : PublishError → Bool
  | .Concurrency .NotMostRecent => true
  | .Concurrency .CasFailed => true
  | _ => false

/-- Models `InflightPublishRequests::done`: `(request.errors.len() +
request.success_count) == self.relays_count`. Note `errors.len()` is the
number of distinct error kinds, not the total error count. -/
def done (relays_count : Nat) (request : InflightPublishRequest) : Bool :=
  decide (request.errors.length + request.success_count = relays_count)

/-- Models `InflightPublishRequests::start_request`: admission control. Returns the
updated registry on success, or the admission error. -/
def start_request (reqs : Requests) (public_key : PublicKey)
    (signed_packet : SignedPacket) (cas : Option Nat) :
    Except PublishError Requests :=
  match lookupReq reqs public_key with
  | some inflight_request =>
      if signed_packet.signature = inflight_request.signed_packet.signature then
        Except.ok reqs
      else if signed_packet.more_recent_than inflight_request.signed_packet = false then
        Except.error (PublishError.Concurrency ConcurrencyError.NotMostRecent)
      else
        match cas with
        | some cas =>
            if cas ≠ inflight_request.signed_packet.timestamp then
              Except.error (PublishError.Concurrency ConcurrencyError.CasFailed)
            else
              Except.ok reqs
        | none => Except.error (PublishError.Concurrency ConcurrencyError.ConflictRisk)
  | none =>
      Except.ok (insertReq reqs public_key
        { signed_packet := signed_packet, success_count := 0, errors := [] })

/-- Models `InflightPublishRequests::add_success`. `none` models the panic of
`inflight.get_mut(public_key).expect("infallible")` when the entry is
missing; otherwise the updated registry and the `Result<bool, PublishError>`
value (`Except.ok b` for `Ok(b)`, `Except.error e` for `Err(e)`). -/
def add_success (relays_count : Nat) (reqs : Requests) (public_key : PublicKey) :
    Option (Requests × Except PublishError Bool) :=
  match lookupReq reqs public_key with
  | none => none
  | some request =>
      let majority := relays_count / 2 + 1
      let request := { request with success_count := request.success_count + 1 }
      if done relays_count request then
        some (insertReq reqs public_key request, Except.ok true)
      else if majority ≤ request.success_count then
        some (removeReq reqs public_key, Except.ok true)
      else
        some (insertReq reqs public_key request, Except.ok false)

/-- Models `InflightPublishRequests::add_error`. `none` models the panics on
`.expect("infallible")` (missing entry, or an empty error map at the
most-common-error step). -/
def add_error (relays_count : Nat) (reqs : Requests) (public_key : PublicKey)
    (error : PublishError) : Option (Requests × Except PublishError Bool) :=
  match lookupReq reqs public_key with
  | none => none
  | some request =>
      let majority := relays_count / 2 + 1
      let count := getCount request.errors error + 1
      if majority ≤ count ∧ isConflictClass error = true then
        some (removeReq reqs public_key, Except.error error)
      else
        let request := { request with errors := insertCount request.errors error count }
        if done relays_count request then
          if majority ≤ request.success_count then
            some (removeReq reqs public_key, Except.ok true)
          else
            match maxByCount request.errors with
            | some p => some (removeReq reqs public_key, Except.error p.1)
            | none => none
        else
          some (insertReq reqs public_key request, Except.ok false)

/-- Models `InflightPublishRequests::add_result`: dispatches a relay outcome to
`add_success` or `add_error`. -/
def add_result (relays_count : Nat) (reqs : Requests) (public_key : PublicKey)
    (result : Except PublishError Unit) :
    Option (Requests × Except PublishError Bool) :=
  match result with
  | Except.ok _ => add_success relays_count reqs public_key
  | Except.error e => add_error relays_count reqs public_key e

instance : DecidableEq (Except PublishError Unit) := fun a b =>
  match a, b with
  | Except.ok (), Except.ok () => isTrue rfl
  | Except.error e, Except.error f =>
      if h : e = f then isTrue (by rw [h]) else
        isFalse (by intro hh; cases hh; exact h rfl)
  | Except.ok _, Except.error _ => isFalse (by intro hh; cases hh)
  | Except.error _, Except.ok _ => isFalse (by intro hh; cases hh)

/-- Outcome of feeding the stream of relay results to `add_result` inside
`RelaysClient::publish`: a first decisive value, exhaustion of the stream
with no decisive value, or a panic inside `add_result`. -/
inductive FeedOutcome where
  | decisive : Except PublishError Unit → FeedOutcome
  | exhausted : FeedOutcome
  | panicked : FeedOutcome
deriving DecidableEq, Repr

/-- The `futures.filter_map(..).next()` loop of `RelaysClient::publish`:
feed relay outcomes to `add_result` in arrival order and stop at the first
decisive value (`Ok(true)` or `Err(e)`); once a decisive value is produced
the remaining outcomes are never applied (their tasks are dropped). -/
def feedResults (relays_count : Nat) (public_key : PublicKey) :
    Requests → List (Except PublishError Unit) → Requests × FeedOutcome
  | reqs, [] => (reqs, FeedOutcome.exhausted)
  | reqs, r :: rest =>
      match add_result relays_count reqs public_key r with
      | none => (reqs, FeedOutcome.panicked)
      | some (reqs2, Except.ok true) => (reqs2, FeedOutcome.decisive (Except.ok ()))
      | some (reqs2, Except.ok false) => feedResults relays_count public_key reqs2 rest
      | some (reqs2, Except.error e) => (reqs2, FeedOutcome.decisive (Except.error e))

/-- Observable run of one `RelaysClient::publish` call: the final registry,
the call's result (`none` models a panic: either inside `add_result`, or the
`.expect("infallible")` on an ended stream with no decisive value), and how
many relays were contacted. -/
structure PublishRun where
  final : Requests
  result : Option (Except PublishError Unit)
  contacted : Nat
deriving DecidableEq, Repr

/-- Models `RelaysClient::publish`: admission via `start_request` (an admission error
returns immediately, before any relay request is pushed), then one request
per relay and the decisive-result loop over the arriving outcomes. -/
def publish (relays_count : Nat) (reqs : Requests) (public_key : PublicKey)
    (signed_packet : SignedPacket) (cas : Option Nat)
    (outcomes : List (Except PublishError Unit)) : PublishRun :=
  match start_request reqs public_key signed_packet cas with
  | Except.error e =>
      { final := reqs, result := some (Except.error e), contacted := 0 }
  | Except.ok reqs1 =>
      match feedResults relays_count public_key reqs1 outcomes with
      | (reqs2, FeedOutcome.decisive r) =>
          { final := reqs2, result := some r, contacted := relays_count }
      | (reqs2, FeedOutcome.exhausted) =>
          { final := reqs2, result := none, contacted := relays_count }
      | (reqs2, FeedOutcome.panicked) =>
          { final := reqs2, result := none, contacted := relays_count }

/-- One relay's HTTP response to a resolve GET, as far as
`resolve_from_relay` inspects it: whether `error_for_status` flags it, the
declared `content_length` (`None` when absent), and the body bytes
(`none` when reading the body fails). The whole response is `none` inside
an `Option` at the call site when `send()` itself fails. -/
structure RelayResponse where
  error_status : Bool
  content_length : Option Nat
  body : Option (List Nat)
deriving DecidableEq, Repr

/-- Result of `resolve_from_relay` on one relay plus whether the response
body was ever read into memory (`response.text()` / `response.bytes()`). -/
structure ResolveStep where
  output : Option SignedPacket
  buffered : Bool
deriving DecidableEq, Repr

/-- Models `resolve_from_relay`, per response: a send error yields nothing; an error
status yields nothing (after reading the body for the log); a declared
content length above the maximum record size yields nothing without reading
the body; otherwise the body is read and decoded/verified (`decode` stands
for `SignedPacket::from_relay_payload` against the requested public key,
an external collaborator passed in as a parameter). -/
def resolve_from_relay (decode : List Nat → Option SignedPacket)
    (max_bytes : Nat) (response : Option RelayResponse) : ResolveStep :=
  match response with
  | none => { output := none, buffered := false }
  | some r =>
      if r.error_status then
        { output := none, buffered := true }
      else if max_bytes < (r.content_length.getD 0) then
        { output := none, buffered := false }
      else
        match r.body with
        | none => { output := none, buffered := true }
        | some payload => { output := decode payload, buffered := true }

/-- Models `RelaysClient::resolve`: fan out one GET per relay and keep every
successfully validated record, in arrival order
(`futures.filter_map(|opt| opt)`). -/
def resolve (decode : List Nat → Option SignedPacket) (max_bytes : Nat)
    (responses : List (Option RelayResponse)) : List SignedPacket :=
  responses.filterMap (fun r => (resolve_from_relay decode max_bytes r).output)

/-- Total number of recorded votes in an entry: the success counter plus the
sum of all per-error-kind occurrence counts. -/
def totalVotes (request : InflightPublishRequest) : Nat :=
  request.success_count + (request.errors.map (fun p => p.2)).sum

/-- A concrete admitted record (signature 1, timestamp 10). -/
def spA : SignedPacket := { signature := 1, timestamp := 10 }

/-- A concrete record with a different signature, more recent than `spA`. -/
def spB : SignedPacket := { signature := 2, timestamp := 20 }

/-- A concrete record with a different signature, older than `spA`. -/
def spOld : SignedPacket := { signature := 2, timestamp := 5 }

/-- A concrete record with the same signature as `spA`. -/
def spA2 : SignedPacket := { signature := 1, timestamp := 99 }

/-- Shorthand for the timeout error. -/
def errTimeout : PublishError := PublishError.Query QueryError.Timeout

/-- Shorthand for the not-most-recent error. -/
def errNMR : PublishError := PublishError.Concurrency ConcurrencyError.NotMostRecent

/-- Shorthand for the conflict-risk error. -/
def errCR : PublishError := PublishError.Concurrency ConcurrencyError.ConflictRisk

/-- A relay outcome: timeout error. -/
def outT : Except PublishError Unit := Except.error errTimeout

/-- A relay outcome: not-most-recent error. -/
def outNMR : Except PublishError Unit := Except.error errNMR

/-- A relay outcome: success. -/
def outOk : Except PublishError Unit := Except.ok ()

/-- A fresh in-flight entry for `spA`. -/
def entA : InflightPublishRequest :=
  { signed_packet := spA, success_count := 0, errors := [] }

/-- An in-flight entry for `spA` holding one not-most-recent error. -/
def entNMR1 : InflightPublishRequest :=
  { signed_packet := spA, success_count := 0, errors := [(errNMR, 1)] }

/-- The entry left behind by the N=3 run [timeout, not-most-recent, success]:
one success and one error of each of two kinds. -/
def entFull : InflightPublishRequest :=
  { signed_packet := spA, success_count := 1,
    errors := [(errTimeout, 1), (errNMR, 1)] }

/-- `entFull` after one more conflict-risk error is recorded: four votes in a
three-relay registry. -/
def entOver : InflightPublishRequest :=
  { signed_packet := spA, success_count := 1,
    errors := [(errTimeout, 1), (errNMR, 1), (errCR, 1)] }

/-- Claim C1: the spec says that when no in-flight entry exists for a key,
`add_result` is a no-op (no panic, no registry change, no decisive result).
The code instead panics: `add_success` and `add_error` both call
`inflight.get_mut(public_key).expect("infallible")`, so on a missing entry
the call panics (modelled as `none`) on both the success and the error
path. -/
theorem add_result_missing_entry_panics :
    add_result 3 [] 0 (Except.ok ()) = none ∧
    add_result 3 [] 0 (Except.error errTimeout) = none :=
  ⟨rfl, rfl⟩

/-- Claim C2: the spec says a decisive overall success requires the success
counter to reach `majority = N / 2 + 1` and that the entry is removed at
that moment. The code's `add_success` has a completion branch (`done`,
counting distinct error kinds) that fires first: with N = 3 and outcomes
[timeout, not-most-recent, success], the final success makes
`errors.len() + success_count = 3 = N`, so publish returns overall success
with `success_count = 1 < 2 = majority`, and the entry stays in the
registry. -/
theorem add_success_completion_decides_without_majority :
    publish 3 [] 0 spA none [outT, outNMR, outOk] =
      { final := [(0, entFull)],
        result := some (Except.ok ()),
        contacted := 3 } ∧
    entFull.success_count < 3 / 2 + 1 :=
  ⟨rfl, by decide⟩

/-- Claim C3: the spec says that when all N relays report, no outcome kind has
a majority, the publish fails with the most frequent error kind and the
entry is removed. With N = 5 and outcomes [success, success, timeout,
timeout, not-most-recent], the code's `done` check compares
`errors.len() + success_count` — distinct error kinds (2) plus successes
(2) is 4, never 5 — so no `add_result` call ever produces a decisive
value; the entry stays in the registry and the publish call panics on the
final `.expect("infallible")` when the outcome stream ends (`result =
none`). -/
theorem publish_mixed_errors_never_completes :
    publish 5 [] 0 spA none [outOk, outOk, outT, outT, outNMR] =
      { final := [(0, { signed_packet := spA, success_count := 2,
                        errors := [(errTimeout, 2), (errNMR, 1)] })],
        result := none,
        contacted := 5 } :=
  rfl

/-- Claim C4: the spec's invariant says `success_count + Σ(error counts) ≤ N`
always, with the entry removed as soon as the sum reaches N or a decision
fires. On the code: after the N = 3 run [timeout, not-most-recent,
success] a decision fires and the sum reaches 3 = N, yet the entry remains
(`entFull`, three votes); a later publish of the same record joins it
(`start_request` is a no-op on equal signatures) and one further
conflict-risk error is recorded, leaving an entry with
`totalVotes = 4 > 3 = N` in the registry. -/
theorem inflight_entry_exceeds_relay_count :
    (publish 3 [] 0 spA none [outT, outNMR, outOk]).final = [(0, entFull)] ∧
    totalVotes entFull = 3 ∧
    start_request [(0, entFull)] 0 spA none = Except.ok [(0, entFull)] ∧
    add_error 3 [(0, entFull)] 0 errCR = some ([(0, entOver)], Except.ok false) ∧
    3 < totalVotes entOver :=
  ⟨rfl, rfl, rfl, rfl, by decide⟩

/-- Claim C5: publishing a record with a different signature that is not more
recent than the admitted one fails immediately with `NotMostRecent`,
contacts no relay, and leaves the registry exactly as it was. -/
theorem publish_not_most_recent_rejected_locally
    (relays_count : Nat) (reqs : Requests) (pk : PublicKey)
    (sp : SignedPacket) (cas : Option Nat)
    (outcomes : List (Except PublishError Unit))
    (entry : InflightPublishRequest)
    (hin : lookupReq reqs pk = some entry)
    (hsig : sp.signature ≠ entry.signed_packet.signature)
    (hrec : sp.more_recent_than entry.signed_packet = false) :
    publish relays_count reqs pk sp cas outcomes =
      { final := reqs,
        result := some (Except.error
          (PublishError.Concurrency ConcurrencyError.NotMostRecent)),
        contacted := 0 } := by
  unfold publish start_request
  rw [hin]
  simp [hsig, hrec]

theorem publish_not_most_recent_rejected_locally_witness :
    publish 3 [(0, entA)] 0 spOld none [outOk] =
      { final := [(0, entA)],
        result := some (Except.error
          (PublishError.Concurrency ConcurrencyError.NotMostRecent)),
        contacted := 0 } :=
  publish_not_most_recent_rejected_locally 3 [(0, entA)] 0 spOld none [outOk]
    entA rfl (by decide) (by decide)

/-- Claim C6: with an admitted entry and a more recent candidate of a
different signature, supplying a CAS token equal to the admitted record's
timestamp admits the caller without touching the registry (the admitted
record is not replaced), while supplying no CAS token fails with
`ConflictRisk`. -/
theorem start_request_more_recent_cas_or_conflict_risk
    (reqs : Requests) (pk : PublicKey) (sp : SignedPacket)
    (entry : InflightPublishRequest)
    (hin : lookupReq reqs pk = some entry)
    (hsig : sp.signature ≠ entry.signed_packet.signature)
    (hrec : sp.more_recent_than entry.signed_packet = true) :
    start_request reqs pk sp (some entry.signed_packet.timestamp) =
      Except.ok reqs ∧
    start_request reqs pk sp none =
      Except.error (PublishError.Concurrency ConcurrencyError.ConflictRisk) := by
  unfold start_request
  rw [hin]
  simp [hsig, hrec]

theorem start_request_more_recent_cas_or_conflict_risk_witness :
    start_request [(0, entA)] 0 spB (some 10) = Except.ok [(0, entA)] ∧
    start_request [(0, entA)] 0 spB none =
      Except.error (PublishError.Concurrency ConcurrencyError.ConflictRisk) :=
  start_request_more_recent_cas_or_conflict_risk [(0, entA)] 0 spB entA
    rfl (by decide) (by decide)

/-- Claim C7: publishing a record whose signature equals the admitted record's
signature joins the in-flight write: `start_request` returns success and
the registry — entry, admitted record, every counter — is unchanged. -/
theorem start_request_same_signature_joins
    (reqs : Requests) (pk : PublicKey) (sp : SignedPacket) (cas : Option Nat)
    (entry : InflightPublishRequest)
    (hin : lookupReq reqs pk = some entry)
    (hsig : sp.signature = entry.signed_packet.signature) :
    start_request reqs pk sp cas = Except.ok reqs := by
  unfold start_request
  rw [hin]
  simp [hsig]

theorem start_request_same_signature_joins_witness :
    start_request [(0, entA)] 0 spA2 (some 7) = Except.ok [(0, entA)] :=
  start_request_same_signature_joins [(0, entA)] 0 spA2 (some 7) entA
    rfl (by decide)

/-- Claim C8: a conflict-class error (`NotMostRecent` or `CasFailed`) whose
occurrence count reaches `majority = N / 2 + 1` makes `add_error` remove
the entry and return that error as the decisive result immediately; a
non-conflict error kind (`Timeout`, `ConflictRisk`) never triggers this
early abort — however large its count, as long as the completion check is
not hit the call records it and stays non-decisive. -/
theorem add_error_conflict_majority_aborts
    (relays_count : Nat) (reqs : Requests) (pk : PublicKey)
    (error : PublishError) (entry : InflightPublishRequest)
    (hin : lookupReq reqs pk = some entry) :
    (isConflictClass error = true →
      relays_count / 2 + 1 ≤ getCount entry.errors error + 1 →
      add_error relays_count reqs pk error =
        some (removeReq reqs pk, Except.error error)) ∧
    (isConflictClass error = false →
      done relays_count
        { entry with
          errors := insertCount entry.errors error
            (getCount entry.errors error + 1) } = false →
      add_error relays_count reqs pk error =
        some (insertReq reqs pk
          { entry with
            errors := insertCount entry.errors error
              (getCount entry.errors error + 1) },
          Except.ok false)) := by
  constructor
  · intro hcc hmaj
    unfold add_error
    rw [hin]
    simp [hcc, hmaj]
  · intro hcc hdone
    unfold add_error
    rw [hin]
    simp [hcc, hdone]

theorem add_error_conflict_majority_aborts_witness :
    add_error 3 [(0, entNMR1)] 0 errNMR = some ([], Except.error errNMR) ∧
    add_error 3 [(0, entNMR1)] 0 errTimeout =
      some ([(0, { signed_packet := spA, success_count := 0,
                   errors := [(errNMR, 1), (errTimeout, 1)] })],
            Except.ok false) :=
  ⟨(add_error_conflict_majority_aborts 3 [(0, entNMR1)] 0 errNMR entNMR1
      rfl).1 (by decide) (by decide),
   (add_error_conflict_majority_aborts 3 [(0, entNMR1)] 0 errTimeout entNMR1
      rfl).2 (by decide) (by decide)⟩

/-- Claim C9: a resolve response whose declared content length exceeds the
maximum record size contributes nothing to the output sequence (removing
it from the response list leaves the output unchanged), raises no error,
and — on the non-error-status path the guard sits on — is rejected before
the body is ever buffered. -/
theorem resolve_oversized_response_excluded
    (decode : List Nat → Option SignedPacket) (max_bytes : Nat)
    (r : RelayResponse) (early late : List (Option RelayResponse))
    (hlen : max_bytes < r.content_length.getD 0) :
    resolve decode max_bytes (early ++ some r :: late) =
      resolve decode max_bytes (early ++ late) ∧
    (resolve_from_relay decode max_bytes (some r)).output = none ∧
    (r.error_status = false →
      (resolve_from_relay decode max_bytes (some r)).buffered = false) := by
  have hout : (resolve_from_relay decode max_bytes (some r)).output = none := by
    unfold resolve_from_relay
    cases h : r.error_status
    · simp [h, hlen]
    · simp [h]
  refine ⟨?_, hout, ?_⟩
  · unfold resolve
    simp [List.filterMap_append, List.filterMap_cons, hout]
  · intro hstat
    unfold resolve_from_relay
    simp [hstat, hlen]

theorem resolve_oversized_response_excluded_witness :
    resolve (fun _ => none) 5
        [some { error_status := false, content_length := some 6, body := some [] }] =
      resolve (fun _ => none) 5 [] ∧
    (resolve_from_relay (fun _ => none) 5
        (some { error_status := false, content_length := some 6,
                body := some [] })).output = none ∧
    ((false : Bool) = false →
      (resolve_from_relay (fun _ => none) 5
          (some { error_status := false, content_length := some 6,
                  body := some [] })).buffered = false) :=
  resolve_oversized_response_excluded (fun _ => none) 5
    { error_status := false, content_length := some 6, body := some [] }
    [] [] (by decide)

/-- Claim C10: with an admitted entry and a more recent candidate of a
different signature, a CAS token different from the admitted record's
timestamp makes publish fail immediately with `CasFailed`: no relay is
contacted and the registry is unchanged. -/
theorem publish_cas_mismatch_rejected_locally
    (relays_count : Nat) (reqs : Requests) (pk : PublicKey)
    (sp : SignedPacket) (c : Nat)
    (outcomes : List (Except PublishError Unit))
    (entry : InflightPublishRequest)
    (hin : lookupReq reqs pk = some entry)
    (hsig : sp.signature ≠ entry.signed_packet.signature)
    (hrec : sp.more_recent_than entry.signed_packet = true)
    (hcas : c ≠ entry.signed_packet.timestamp) :
    publish relays_count reqs pk sp (some c) outcomes =
      { final := reqs,
        result := some (Except.error
          (PublishError.Concurrency ConcurrencyError.CasFailed)),
        contacted := 0 } := by
  unfold publish start_request
  rw [hin]
  simp [hsig, hrec, hcas]

theorem publish_cas_mismatch_rejected_locally_witness :
    publish 3 [(0, entA)] 0 spB (some 7) [outOk] =
      { final := [(0, entA)],
        result := some (Except.error
          (PublishError.Concurrency ConcurrencyError.CasFailed)),
        contacted := 0 } :=
  publish_cas_mismatch_rejected_locally 3 [(0, entA)] 0 spB 7 [outOk]
    entA rfl (by decide) (by decide) (by decide)

end Relays
